import Mathlib

/-!
Verification development for the SynthSight consensus-orchestration repository.

The Python sources under `consilium_mcp 2/` are shallowly embedded below:
pure string/number computations become Lean functions over `String`/`Rat`,
regular-expression scans become explicit fuelled scanners with the same
left-to-right, greedy-with-backtracking semantics as the source patterns,
and the stateful consensus engine becomes explicit state passing with the
external model backends abstracted as an oracle `String → String → Option String`.
Side effects that no property observes (visual-state snapshots, pacing sleeps,
HTTP transport) are omitted; message and log construction is kept faithful.
-/

/-! ## Python string primitives -/

/-- Python `needle in haystack` (substring containment). -/
def containsSub (needle haystack : String) : Bool :=
  decide (needle.data <:+: haystack.data)

/-- Python `str.lower()` (ASCII range, which covers all keyword tables in the source). -/
def pyLower (s : String) : String := (s.data.map Char.toLower).asString

/-- Python `str.upper()` (ASCII range). -/
def pyUpper (s : String) : String := (s.data.map Char.toUpper).asString

/-- Python whitespace class `\s` / default `str.strip` characters. -/
def isPyWs (c : Char) : Bool :=
  c = ' ' || c = '\t' || c = '\n' || c = '\r' || c = Char.ofNat 11 || c = Char.ofNat 12

/-- Python `str.strip()`. -/
def pyStrip (s : String) : String :=
  ((s.data.dropWhile isPyWs).reverse.dropWhile isPyWs).reverse.asString

/-- Python slicing `s[:n]`. -/
def pyTake (n : Nat) (s : String) : String := (s.data.take n).asString

/-- Regex word character `\w` = `[A-Za-z0-9_]`. -/
def wordChar (c : Char) : Bool := c.isAlphanum || c = '_'

/-- Python `str.join`. -/
def pyJoin (sep : String) (parts : List String) : String :=
  match parts with
  | [] => ""
  | p :: ps => ps.foldl (fun acc q => acc ++ sep ++ q) p

/-- Python `str.replace(a, b)` for a single-character pattern. -/
def pyReplaceChar (a b : Char) (s : String) : String :=
  (s.data.map (fun c => if c = a then b else c)).asString

/-- Python `str.title()`: first alphabetic character of each word uppercased,
the rest lowercased; a word starts after any non-alphabetic character. -/
def pyTitle (s : String) : String :=
  (s.data.foldl
    (fun (acc : List Char × Bool) c =>
      if c.isAlpha then
        (acc.1 ++ [if acc.2 then c.toLower else c.toUpper], true)
      else
        (acc.1 ++ [c], false))
    ([], false)).1.asString

/-- Numeric value of a decimal digit character. -/
def digitVal (c : Char) : Nat := c.toNat - '0'.toNat

/-- Value of a list of decimal digit characters. -/
def digitsToNat (ds : List Char) : Nat :=
  ds.foldl (fun acc c => acc * 10 + digitVal c) 0

/-! ## Regex scanners

Each scanner mirrors one `re` pattern from the source with `re.findall` /
`re.search` semantics: scan positions left to right, match greedily with the
pattern's deterministic backtracking, continue after a match (or one character
past a failed position).  The fuel argument is always called with more fuel
than there are characters, so it never runs out. -/

/-- Word-boundary check for the position before the head of `l`
when the previous character is a word character iff `prevWord`. -/
def boundaryBefore (prevWord : Bool) : Bool := !prevWord

/-- Word-boundary check for the position after a word character,
looking at the remaining input. -/
def boundaryAfterWord (l : List Char) : Bool :=
  match l with
  | [] => true
  | c :: _ => !wordChar c

/-- Scanner for `\b(20\d{2})\b` (`BaseTool._check_recency`). -/
def findYearsGo : Nat → Bool → List Char → List Nat
  | 0, _, _ => []
  | _ + 1, _, [] => []
  | fuel + 1, prevWord, c1 :: rest =>
    match rest with
    | c2 :: c3 :: c4 :: rest2 =>
      if !prevWord && c1 = '2' && c2 = '0' && c3.isDigit && c4.isDigit
          && boundaryAfterWord rest2 then
        (2000 + digitVal c3 * 10 + digitVal c4) :: findYearsGo fuel true rest2
      else
        findYearsGo fuel (wordChar c1) rest
    | _ => findYearsGo fuel (wordChar c1) rest

/-- All `re.findall(r'\b(20\d{2})\b', text)` matches, as numbers. -/
def findYears (s : String) : List Nat :=
  findYearsGo (s.data.length + 1) false s.data

/-- Try the `%` / no-`%` tail alternatives of `\b\d+(?:\.\d+)?%?\b`
at a candidate token, in the pattern's backtracking order. -/
def numTokenTail (tok after : List Char) : Option (List Char × List Char) :=
  match after with
  | '%' :: r3 =>
    if (match r3 with | c2 :: _ => wordChar c2 | [] => false) then
      some (tok ++ ['%'], r3)
    else
      -- the `%` branch fails its trailing \b; drop the `%`:
      -- the token then ends in a digit and `%` is a non-word character.
      some (tok, after)
  | _ =>
    if boundaryAfterWord after then some (tok, after) else none

/-- Scanner for `\b\d+(?:\.\d+)?%?\b` (`BaseTool._check_specificity`,
`EnhancedResearchAgent._extract_key_findings`). -/
def findNumbersGo : Nat → Bool → List Char → List String
  | 0, _, _ => []
  | _ + 1, _, [] => []
  | fuel + 1, prevWord, c :: rest =>
    if !prevWord && c.isDigit then
      let d1 := (c :: rest).takeWhile Char.isDigit
      let a1 := (c :: rest).dropWhile Char.isDigit
      let withDot : Option (List Char × List Char) :=
        match a1 with
        | '.' :: r2 =>
          let d2 := r2.takeWhile Char.isDigit
          if d2 = [] then none
          else numTokenTail (d1 ++ '.' :: d2) (r2.dropWhile Char.isDigit)
        | _ => none
      let pick : Option (List Char × List Char) :=
        match withDot with
        | some r => some r
        | none => numTokenTail d1 a1
      match pick with
      | some (tok, after) =>
        let prevW := match tok.getLast? with
          | some c2 => wordChar c2
          | none => false
        tok.asString :: findNumbersGo fuel prevW after
      | none => findNumbersGo fuel (wordChar c) rest
    else
      findNumbersGo fuel (wordChar c) rest

/-- All `re.findall(r'\b\d+(?:\.\d+)?%?\b', text)` matches. -/
def findNumbers (s : String) : List String :=
  findNumbersGo (s.data.length + 1) false s.data

/-- The alternatives of `\b(?:exactly|precisely|specifically|measured|calculated)\b`. -/
def specificTermWords : List (List Char) :=
  ["exactly".data, "precisely".data, "specifically".data, "measured".data,
   "calculated".data]

/-- Scanner counting the matches of the specificity-term pattern
(case handled by scanning the lowercased text, which `re.IGNORECASE` reduces to
for these ASCII alternatives). -/
def countSpecificTermsGo : Nat → Bool → List Char → Nat
  | 0, _, _ => 0
  | _ + 1, _, [] => 0
  | fuel + 1, prevWord, c :: rest =>
    if !prevWord then
      match specificTermWords.find?
          (fun w => w.isPrefixOf (c :: rest) && boundaryAfterWord ((c :: rest).drop w.length)) with
      | some w => 1 + countSpecificTermsGo fuel true ((c :: rest).drop w.length)
      | none => countSpecificTermsGo fuel (wordChar c) rest
    else
      countSpecificTermsGo fuel (wordChar c) rest

/-- Number of `re.findall(r'\b(?:exactly|...|calculated)\b', text, re.IGNORECASE)` matches. -/
def countSpecificTerms (s : String) : Nat :=
  countSpecificTermsGo (s.data.length + 1) false (pyLower s).data

/-- Scanner for `\b\w{4,}\b`: maximal word-character runs of length at least 4. -/
def wordRunsGo : Nat → List Char → List (List Char)
  | 0, _ => []
  | _ + 1, [] => []
  | fuel + 1, c :: rest =>
    if wordChar c then
      ((c :: rest).takeWhile wordChar) :: wordRunsGo fuel ((c :: rest).dropWhile wordChar)
    else
      wordRunsGo fuel rest

/-- All `re.findall(r'\b\w{4,}\b', text)` matches. -/
def findWords4 (s : String) : List String :=
  ((wordRunsGo (s.data.length + 1) s.data).filter (fun r => 4 ≤ r.length)).map
    List.asString

/-! ## BaseTool quality scoring (`research_tools/base_tool.py`) -/

/-- The record returned by `BaseTool.score_research_quality`. -/
structure QualityScore where
  recency : Rat
  authority : Rat
  specificity : Rat
  relevance : Rat
  overall : Rat
deriving Repr, DecidableEq

/-- `BaseTool._check_recency`.  `datetime.now().year` is the explicit
`currentYear` parameter of the embedding. -/
def checkRecency (currentYear : Nat) (text : String) : Rat :=
  if text = "" then 3/10
  else
    match findYears text with
    | [] => 3/10
    | y :: ys =>
      let latestYear := ys.foldl max y
      max 0 (1 - ((currentYear : Rat) - (latestYear : Rat)) / 10)

/-- The per-source base authority table of `BaseTool._check_authority`. -/
def authorityBase (sourceLower : String) : Rat :=
  if sourceLower = "arxiv" then 9/10
  else if sourceLower = "sec" then 19/20
  else if sourceLower = "github" then 7/10
  else if sourceLower = "wikipedia" then 4/5
  else if sourceLower = "web" then 1/2
  else 1/2

/-- The credibility-marker keywords of `BaseTool._check_authority`. -/
def credibilityMarkers : List String :=
  ["study", "research", "university", "published", "peer-reviewed", "official"]

/-- `BaseTool._check_authority`. -/
def checkAuthority (text source : String) : Rat :=
  let base := authorityBase (pyLower source)
  let score :=
    if text = "" then base
    else
      let markerCount :=
        (credibilityMarkers.filter (fun m => containsSub m (pyLower text))).length
      base + min (3/10) ((markerCount : Rat) * (1/20))
  min 1 score

/-- `BaseTool._check_specificity`. -/
def checkSpecificity (text : String) : Rat :=
  if text = "" then 1/10
  else
    let numbers := (findNumbers text).length
    let specificTerms := countSpecificTerms text
    max (1/10) (min 1 ((numbers : Rat) * (1/50) + (specificTerms : Rat) * (1/10)))

/-- `BaseTool._check_relevance`: the placeholder implementation returns `0.7`
without inspecting its argument (an `Option` input also covers a `None` caller). -/
def checkRelevance (_text : Option String) : Rat := 7/10

/-- `BaseTool.score_research_quality`: the four sub-scores plus the fixed
weighted combination (weights: recency 0.2, authority 0.3, specificity 0.3,
relevance 0.2). -/
def scoreResearchQuality (currentYear : Nat) (researchResult source : String) :
    QualityScore :=
  let r := checkRecency currentYear researchResult
  let a := checkAuthority researchResult source
  let s := checkSpecificity researchResult
  let rel := checkRelevance (some researchResult)
  { recency := r
    authority := a
    specificity := s
    relevance := rel
    overall := r * (2/10) + a * (3/10) + s * (3/10) + rel * (2/10) }

/-! ## Theorems for the quality-scoring claims -/

/-- C4: the claim that all four sub-scores and `overall` lie in [0,1] fails on
the code: for the text `"2099"` (a future year relative to the current year
2026), `_check_recency` returns `max(0, 1 - (2026 - 2099)/10) = 8.3 > 1`, and
`overall` is `1.98 > 1`.  The repository's own test
(`test_research_tools.py`, `test_quality_scoring`) checks `0 <= score <= 1`
for every metric, so the missing upper clamp is a code bug; the weighted
combination itself is computed exactly as documented. -/
theorem c4_recency_exceeds_one_on_future_year :
    (scoreResearchQuality 2026 "2099" "web").recency = 83/10 ∧
    (scoreResearchQuality 2026 "2099" "web").overall = 99/50 ∧
    ¬ (scoreResearchQuality 2026 "2099" "web").recency ≤ 1 ∧
    ¬ (scoreResearchQuality 2026 "2099" "web").overall ≤ 1 := by
  have hy : findYears "2099" = [2099] := by decide
  have hr : checkRecency 2026 "2099" = 83/10 := by
    simp [checkRecency, hy, max_def]
    norm_num
  have hmk : (credibilityMarkers.filter
      (fun m => containsSub m (pyLower "2099"))).length = 0 := by rfl
  have hw : pyLower "web" = "web" := rfl
  have ha : checkAuthority "2099" "web" = 1/2 := by
    simp [checkAuthority, authorityBase, hmk, hw, min_def]
    norm_num
  have hn : (findNumbers "2099").length = 1 := by rfl
  have hst : countSpecificTerms "2099" = 0 := by rfl
  have hs : checkSpecificity "2099" = 1/10 := by
    simp [checkSpecificity, hn, hst, min_def, max_def]
    norm_num
  refine ⟨?_, ?_, ?_, ?_⟩ <;>
    simp only [scoreResearchQuality, checkRelevance, hr, ha, hs] <;> norm_num

/-- C10: `_check_relevance` ignores its input entirely and returns the constant
0.7 (also for empty or missing text), so relevance contributes the fixed
`0.7 * 0.2 = 0.14` to every overall score. -/
theorem c10_relevance_constant (text : Option String) (cy : Nat)
    (anyText source : String) :
    checkRelevance text = 7/10 ∧
    (scoreResearchQuality cy anyText source).relevance = 7/10 ∧
    (scoreResearchQuality cy anyText source).overall
      = (scoreResearchQuality cy anyText source).recency * (2/10)
        + (scoreResearchQuality cy anyText source).authority * (3/10)
        + (scoreResearchQuality cy anyText source).specificity * (3/10)
        + 7/50 := by
  refine ⟨rfl, rfl, ?_⟩
  simp only [scoreResearchQuality, checkRelevance]
  norm_num

/-! ## Research collaborators: relevance predicates
(`research_tools/*.py`, `should_use_for_query` overrides) -/

/-- Helper for the ubiquitous `any(keyword in query_lower for keyword in ...)`. -/
def anyKeyword (keywords : List String) (queryLower : String) : Bool :=
  keywords.any (fun k => containsSub k queryLower)

/-- `WebSearchTool.should_use_for_query` keyword tables. -/
def webCurrentIndicators : List String :=
  ["news", "recent", "latest", "current", "today", "2024", "2025"]

def webGeneralIndicators : List String :=
  ["what is", "how to", "guide", "tutorial", "review"]

def webShouldUse (query : String) : Bool :=
  anyKeyword (webCurrentIndicators ++ webGeneralIndicators) (pyLower query)

/-- `WikipediaSearchTool.should_use_for_query`. -/
def wikipediaIndicators : List String :=
  ["what is", "who is", "history of", "definition", "background",
   "overview", "explain", "about", "biography", "concept"]

def wikipediaShouldUse (query : String) : Bool :=
  anyKeyword wikipediaIndicators (pyLower query)

/-- `ArxivSearchTool.should_use_for_query`. -/
def arxivIndicators : List String :=
  ["research", "study", "analysis", "scientific", "algorithm", "method",
   "machine learning", "ai", "artificial intelligence", "deep learning",
   "neural network", "computer science", "physics", "mathematics",
   "quantum", "cryptography", "blockchain", "paper", "academic"]

def arxivShouldUse (query : String) : Bool :=
  anyKeyword arxivIndicators (pyLower query)

/-- `GitHubSearchTool.should_use_for_query`. -/
def githubIndicators : List String :=
  ["technology", "framework", "library", "software", "programming",
   "development", "developer", "code", "github", "open source",
   "javascript", "python", "react", "nodejs", "django", "flask",
   "vue", "angular", "typescript", "rust", "go", "kotlin",
   "adoption", "popular", "trending", "tools", "stack"]

def githubShouldUse (query : String) : Bool :=
  anyKeyword githubIndicators (pyLower query)

/-- `SECSearchTool.should_use_for_query`. -/
def secIndicators : List String :=
  ["company", "financial", "revenue", "earnings", "profit", "stock",
   "investment", "market cap", "sec filing", "annual report",
   "quarterly", "balance sheet", "income statement", "cash flow",
   "public company", "ticker", "investor", "shareholder"]

def secShouldUse (query : String) : Bool :=
  anyKeyword secIndicators (pyLower query)

/-- Historical-data keywords.  The identical literal appears in
`EnrichMCPHistoricalDataTool.should_use_for_query`,
`EnhancedResearchAgent._route_query_to_tool` and
`EnhancedResearchAgent._get_relevant_tools`. -/
def historicalDataKeywords : List String :=
  ["trend", "performance", "growth", "decline", "volatility",
   "market", "stock", "crypto", "commodity", "investment",
   "historical", "past", "over time", "since", "during",
   "compare", "comparison", "vs", "versus", "relative"]

/-- Instrument names.  The identical literal appears in
`EnrichMCPHistoricalDataTool.available_instruments` and in both routing
methods of `EnhancedResearchAgent`. -/
def availableInstrumentNames : List String :=
  ["bitcoin", "ethereum", "apple", "tesla", "microsoft", "google",
   "nvidia", "netflix", "amazon", "meta", "gold", "silver",
   "platinum", "copper", "crude_oil", "natural_gas", "sp_500",
   "nasdaq_100", "berkshire"]

/-- `EnrichMCPHistoricalDataTool.should_use_for_query`. -/
def enrichShouldUse (query : String) : Bool :=
  anyKeyword historicalDataKeywords (pyLower query) &&
    anyKeyword availableInstrumentNames (pyLower query)

/-- `RawMaterialTechAnalysisTool.should_use_for_query` keyword tables. -/
def rawMaterialKeywords : List String :=
  ["raw material", "commodity", "copper", "oil", "gas", "gold", "silver",
   "supply chain", "manufacturing cost", "material price", "commodity price"]

def rawTechKeywords : List String :=
  ["tech stock", "technology", "apple", "tesla", "microsoft", "google",
   "nvidia", "amazon", "meta", "investment", "buy", "sell", "recommend"]

def rawCorrelationKeywords : List String :=
  ["correlation", "relationship", "impact", "effect", "influence",
   "depend", "sensitive", "vulnerable", "benefit", "hurt"]

def rawMaterialShouldUse (query : String) : Bool :=
  (anyKeyword rawMaterialKeywords (pyLower query) &&
     anyKeyword rawTechKeywords (pyLower query)) ||
    anyKeyword rawCorrelationKeywords (pyLower query)

/-- The tool registry of `EnhancedResearchAgent.__init__`, in insertion order. -/
def allToolNames : List String :=
  ["web", "wikipedia", "arxiv", "github", "sec", "enrich_mcp",
   "raw_material_analysis"]

/-- Dispatch of `tool.should_use_for_query(query)` by tool name
(the `BaseTool` default is `True`). -/
def shouldUseForQuery (tool query : String) : Bool :=
  if tool = "web" then webShouldUse query
  else if tool = "wikipedia" then wikipediaShouldUse query
  else if tool = "arxiv" then arxivShouldUse query
  else if tool = "github" then githubShouldUse query
  else if tool = "sec" then secShouldUse query
  else if tool = "enrich_mcp" then enrichShouldUse query
  else if tool = "raw_material_analysis" then rawMaterialShouldUse query
  else true

/-! ## Research Agent routing and search
(`research_tools/research_agent.py`) -/

/-- The raw-material keyword table local to
`EnhancedResearchAgent._route_query_to_tool` (it concatenates the material and
correlation keywords). -/
def agentRawMaterialKeywords : List String :=
  ["raw material", "commodity", "copper", "oil", "gas", "gold", "silver",
   "supply chain", "manufacturing cost", "material price", "commodity price",
   "correlation", "relationship", "impact", "effect", "influence",
   "depend", "sensitive", "vulnerable", "benefit", "hurt"]

/-- The tech-stock keyword table local to
`EnhancedResearchAgent._route_query_to_tool`. -/
def agentTechStockKeywords : List String :=
  ["tech stock", "technology", "apple", "tesla", "microsoft", "google",
   "nvidia", "amazon", "meta", "investment", "buy", "sell", "recommend"]

/-- `EnhancedResearchAgent._route_query_to_tool`: the standard-depth routing
cascade. -/
def routeQueryToTool (query : String) : String :=
  let ql := pyLower query
  if anyKeyword agentRawMaterialKeywords ql && anyKeyword agentTechStockKeywords ql then
    "raw_material_analysis"
  else if anyKeyword historicalDataKeywords ql && anyKeyword availableInstrumentNames ql then
    "enrich_mcp"
  else
    match allToolNames.find? (fun t =>
        shouldUseForQuery t query &&
          ["raw_material_analysis", "enrich_mcp", "arxiv"].contains t) with
    | some t => t
    | none =>
      if anyKeyword ["company", "stock", "financial", "revenue"] ql then "sec"
      else if anyKeyword ["research", "study", "academic", "paper"] ql then "arxiv"
      else if anyKeyword ["technology", "framework", "programming"] ql then "github"
      else if anyKeyword ["what is", "definition", "history"] ql then "wikipedia"
      else "web"

/-- The formatted failure string of `EnhancedResearchAgent._standard_search`. -/
def standardFailureMessage (query err : String) : String :=
  "**Research for: " ++ query ++ "**\n\nResearch temporarily unavailable: "
    ++ pyTake 100 err ++ "..."

/-- `EnhancedResearchAgent._standard_search`.  Collaborator calls are the
oracle `searchFn : tool → query → Except error result` (a raised exception is
`.error`).  Alongside the returned text, the embedding records the trace of
collaborator invocations in order, so that "falls back exactly once" is a
provable statement. -/
def standardSearch (searchFn : String → String → Except String String)
    (query : String) : String × List String :=
  let bestTool := routeQueryToTool query
  match searchFn bestTool query with
  | .ok r => (r, [bestTool])
  | .error e =>
    if bestTool ≠ "web" then
      match searchFn "web" query with
      | .ok r => (r, [bestTool, "web"])
      | .error e2 => (standardFailureMessage query e2, [bestTool, "web"])
    else
      (standardFailureMessage query e, [bestTool])

/-- The deep-search cap priority order of
`EnhancedResearchAgent._get_relevant_tools`. -/
def deepPriorityOrder : List String :=
  ["enrich_mcp", "arxiv", "sec", "github", "wikipedia", "web"]

/-- `EnhancedResearchAgent._get_relevant_tools`. -/
def getRelevantTools (query : String) : List String :=
  let relevant :=
    "web" :: allToolNames.filter (fun t => t != "web" && shouldUseForQuery t query)
  let ql := pyLower query
  let relevant2 :=
    if anyKeyword historicalDataKeywords ql && anyKeyword availableInstrumentNames ql
        && !(relevant.contains "enrich_mcp") then
      relevant ++ ["enrich_mcp"]
    else relevant
  if relevant2.length > 4 then
    (deepPriorityOrder.filter (fun t => relevant2.contains t)).take 4
  else relevant2

/-- The relevant-collaborator set exactly as the specification words it:
always start from web, add every collaborator whose `should_use_for_query` is
true, and cap at 4 members chosen by the fixed priority order market-data,
academic, filings, code-trends, encyclopedia, web.  Stated for comparison with
`getRelevantTools`. -/
def specRelevantTools (query : String) : List String :=
  let s :=
    "web" :: allToolNames.filter (fun t => t != "web" && shouldUseForQuery t query)
  if s.length > 4 then
    (deepPriorityOrder.filter (fun t => s.contains t)).take 4
  else s

/-- The per-collaborator collection step of
`EnhancedResearchAgent._deep_multi_source_search`: keep a result only when the
call succeeded, the result is truthy and its stripped length exceeds 50. -/
def collectDeepResults (searchFn : String → Except String String)
    (tools : List String) : List (String × String) :=
  tools.filterMap (fun t =>
    match searchFn t with
    | .ok r => if r ≠ "" ∧ 50 < (pyStrip r).length then some (t, r) else none
    | .error _ => none)

/-- The fixed no-results message of
`EnhancedResearchAgent._deep_multi_source_search`. -/
def noResultsMessage (query : String) : String :=
  "**Deep Research for: " ++ query
    ++ "**\n\nNo sources were able to provide results. Please try a different query."

/-- Stripping never lengthens a string. -/
theorem pyStrip_length_le (s : String) : (pyStrip s).length ≤ s.length := by
  show (((s.data.dropWhile isPyWs).reverse.dropWhile isPyWs).reverse).length
      ≤ s.data.length
  rw [List.length_reverse]
  calc ((s.data.dropWhile isPyWs).reverse.dropWhile isPyWs).length
      ≤ (s.data.dropWhile isPyWs).reverse.length :=
        (List.dropWhile_sublist isPyWs).length_le
    _ = (s.data.dropWhile isPyWs).length := List.length_reverse ..
    _ ≤ s.data.length := (List.dropWhile_sublist isPyWs).length_le

/-- C3: for every query, `_get_relevant_tools` computes exactly the set the
specification describes (web always seeded, every collaborator with a true
`should_use_for_query` added, capped at 4 by the fixed priority order
market-data, academic, filings, code-trends, encyclopedia, web) — the extra
historical-data branch in the code is redundant because its condition is
exactly `enrich_mcp`'s own predicate; and the deep-search collection step
discards every response of 50 characters or fewer before synthesis. -/
theorem c3_deep_relevant_tools_and_discard (query : String)
    (searchFn : String → Except String String) :
    getRelevantTools query = specRelevantTools query ∧
    ∀ t r, searchFn t = .ok r → r.length ≤ 50 →
      (t, r) ∉ collectDeepResults searchFn (getRelevantTools query) := by
  constructor
  · unfold getRelevantTools specRelevantTools
    by_cases h : (anyKeyword historicalDataKeywords (pyLower query)
        && anyKeyword availableInstrumentNames (pyLower query)) = true
    · have hsu : shouldUseForQuery "enrich_mcp" query = true := by
        have he : shouldUseForQuery "enrich_mcp" query = enrichShouldUse query := by rfl
        rw [he]
        unfold enrichShouldUse
        exact h
      have hin : "enrich_mcp" ∈ allToolNames.filter
          (fun t => t != "web" && shouldUseForQuery t query) := by
        apply List.mem_filter.mpr
        refine ⟨by decide, ?_⟩
        simp [hsu]
      have hmem : ("web" :: allToolNames.filter
          (fun t => t != "web" && shouldUseForQuery t query)).contains "enrich_mcp"
            = true :=
        List.elem_eq_true_of_mem (List.mem_cons_of_mem _ hin)
      have hcond : (anyKeyword historicalDataKeywords (pyLower query)
          && anyKeyword availableInstrumentNames (pyLower query)
          && !(("web" :: allToolNames.filter
            (fun t => t != "web" && shouldUseForQuery t query)).contains
              "enrich_mcp")) = false := by
        rw [hmem]
        simp
      simp only [hcond, Bool.false_eq_true, if_false]
    · have hcond : (anyKeyword historicalDataKeywords (pyLower query)
          && anyKeyword availableInstrumentNames (pyLower query)
          && !(("web" :: allToolNames.filter
            (fun t => t != "web" && shouldUseForQuery t query)).contains
              "enrich_mcp")) = false := by
        have hf : (anyKeyword historicalDataKeywords (pyLower query)
            && anyKeyword availableInstrumentNames (pyLower query)) = false := by
          simpa using h
        rw [hf]
        simp
      simp only [hcond, Bool.false_eq_true, if_false]
  · intro t r hok hle hmem
    unfold collectDeepResults at hmem
    obtain ⟨a, _, hfa⟩ := List.mem_filterMap.mp hmem
    revert hfa
    cases ha : searchFn a with
    | error e => simp
    | ok r2 =>
      simp only []
      split_ifs with hc
      · intro hfa
        have hpair : a = t ∧ r2 = r := by simpa using hfa
        obtain ⟨hat, har⟩ := hpair
        subst hat
        rw [hok] at ha
        have hr : r = r2 := by injection ha
        have h1 := pyStrip_length_le r2
        have h2 := hc.2
        rw [hr] at hle
        omega
      · intro hfa
        simp at hfa

/-- C3 witness: a concrete run of the deep-search routing and collection. -/
theorem c3_witness :
    getRelevantTools "apple" = specRelevantTools "apple" ∧
    ("web", "ok") ∉ collectDeepResults (fun _ => Except.ok "ok")
      (getRelevantTools "apple") :=
  ⟨(c3_deep_relevant_tools_and_discard "apple" (fun _ => Except.ok "ok")).1,
   (c3_deep_relevant_tools_and_discard "apple" (fun _ => Except.ok "ok")).2
     "web" "ok" rfl (by decide)⟩

/-! ## Deep-search synthesis (`EnhancedResearchAgent._synthesize_multi_source_results`
and helpers) -/

/-- Stable insertion into a descending-sorted list: an element inserted from
the left goes before later elements with an equal key, matching the stability
of Python `sorted(..., reverse=True)` and of `Counter.most_common`. -/
def insDescBy {α β : Type} [LinearOrder β] (key : α → β) (x : α) :
    List α → List α
  | [] => [x]
  | y :: ys => if key y ≤ key x then x :: y :: ys else y :: insDescBy key x ys

/-- Stable sort, descending by `key`. -/
def sortDescBy {α β : Type} [LinearOrder β] (key : α → β) : List α → List α
  | [] => []
  | x :: xs => insDescBy key x (sortDescBy key xs)

/-- `collections.Counter` update preserving first-insertion key order. -/
def upsertCount : List (String × Nat) → String → List (String × Nat)
  | [], w => [(w, 1)]
  | (k, n) :: rest, w =>
    if k = w then (k, n + 1) :: rest else (k, n) :: upsertCount rest w

/-- `Counter.most_common(n)`: count-descending, ties by first insertion. -/
def mostCommon (counts : List (String × Nat)) (n : Nat) : List (String × Nat) :=
  (sortDescBy (fun p => p.2) counts).take n

/-- `list(set(xs))` modelled as first-occurrence deduplication (the claims do
not depend on the hash-based iteration order of a Python `set`). -/
def dedupFirst : List String → List String
  | [] => []
  | x :: xs => x :: dedupFirst (xs.filter (fun y => y != x))
termination_by l => l.length
decreasing_by
  simp only [List.length_cons]
  exact Nat.lt_succ_of_le (List.length_filter_le _ _)

/-- Sentence delimiters of `re.split(r'[.!?]+', text)`. -/
def sentenceDelim (c : Char) : Bool := c = '.' || c = '!' || c = '?'

/-- `re.split(r'[.!?]+', text)`: runs of delimiters split; no empty pieces
between consecutive delimiters. -/
def splitSentencesGo : Nat → List Char → List Char → List String
  | 0, cur, _ => [cur.reverse.asString]
  | _ + 1, cur, [] => [cur.reverse.asString]
  | fuel + 1, cur, c :: rest =>
    if sentenceDelim c then
      cur.reverse.asString :: splitSentencesGo fuel [] (rest.dropWhile sentenceDelim)
    else
      splitSentencesGo fuel (c :: cur) rest

def splitSentences (s : String) : List String :=
  splitSentencesGo (s.data.length + 1) [] s.data

/-- The evidentiary-language markers of
`EnhancedResearchAgent._extract_key_sentences`. -/
def keyIndicators : List String :=
  ["research shows", "study found", "according to", "data indicates",
   "results suggest", "analysis reveals", "evidence shows", "reported that",
   "concluded that", "demonstrated that", "increased", "decreased",
   "growth", "decline", "significant", "important", "critical"]

/-- `EnhancedResearchAgent._extract_key_sentences`. -/
def extractKeySentences (text : String) : List String :=
  if text = "" then []
  else
    (((splitSentences text).map pyStrip).filter (fun s =>
      30 < s.length && anyKeyword keyIndicators (pyLower s))).take 5

/-- The findings record of `EnhancedResearchAgent._extract_key_findings`. -/
structure KeyFindings where
  agreements : List String
  contradictions : List String
  uniqueInsights : List String
  dataPoints : List String

/-- `EnhancedResearchAgent._extract_key_findings`. -/
def extractKeyFindings (results : List (String × String)) : KeyFindings :=
  let sourceSentences := results.map (fun p => (p.1, extractKeySentences p.2))
  let allSentences := sourceSentences.flatMap Prod.snd
  let wordCounts :=
    (allSentences.flatMap (fun s => findWords4 (pyLower s))).foldl upsertCount []
  let commonThemes :=
    ((mostCommon wordCounts 10).filter (fun p => 1 < p.2)).map Prod.fst
  let numbers := findNumbers (pyJoin " " allSentences)
  { agreements :=
      if 1 < sourceSentences.length then
        (commonThemes.take 3).map (fun theme => "Multiple sources mention: " ++ theme)
      else []
    contradictions := []
    uniqueInsights := []
    dataPoints := (dedupFirst numbers).take 10 }

/-- `EnhancedResearchAgent._format_key_findings`. -/
def formatKeyFindings (f : KeyFindings) : String :=
  (if f.agreements ≠ [] then
    "**Key Research Synthesis:**\n\n" ++ "**Common Themes:**\n"
      ++ String.join (f.agreements.map (fun a => "• " ++ a ++ "\n")) ++ "\n"
  else "**Key Research Synthesis:**\n\n")
  ++ (if f.dataPoints ≠ [] then
      "**Key Data Points:**\n"
        ++ String.join ((f.dataPoints.take 5).map (fun d => "• " ++ d ++ "\n")) ++ "\n"
    else "")
  ++ (if f.uniqueInsights ≠ [] then
      "**Unique Insights:**\n"
        ++ String.join (f.uniqueInsights.map (fun i => "• " ++ i ++ "\n")) ++ "\n"
    else "")

/-- Zero-padded decimal rendering of a natural number. -/
def natPad (v width : Nat) : String :=
  (List.replicate (width - (toString v).length) '0').asString ++ toString v

/-- Python `f"{x:.2f}"` for the nonnegative rationals produced by the scoring
pipeline. -/
def fmt2 (q : Rat) : String :=
  let m := (q * 100 + 1/2).floor.toNat
  toString (m / 100) ++ "." ++ natPad (m % 100) 2

/-- Python `f"{x:.1f}"` for nonnegative rationals. -/
def fmt1 (q : Rat) : String :=
  let m := (q * 10 + 1/2).floor.toNat
  toString (m / 10) ++ "." ++ toString (m % 10)

/-- `EnhancedResearchAgent._format_research_quality_assessment`. -/
def formatResearchQualityAssessment
    (qualityScores : List (String × QualityScore)) : String :=
  if qualityScores = [] then ""
  else
    let n : Rat := qualityScores.length
    let avgOverall := ((qualityScores.map (fun p => p.2.overall)).foldl (· + ·) 0) / n
    let avgAuthority := ((qualityScores.map (fun p => p.2.authority)).foldl (· + ·) 0) / n
    let avgRecency := ((qualityScores.map (fun p => p.2.recency)).foldl (· + ·) 0) / n
    let avgSpecificity :=
      ((qualityScores.map (fun p => p.2.specificity)).foldl (· + ·) 0) / n
    let qualityLevel :=
      if avgOverall ≥ 4/5 then "Excellent"
      else if avgOverall ≥ 3/5 then "Good"
      else if avgOverall ≥ 2/5 then "Moderate"
      else "Limited"
    "**Research Quality Assessment:**\n\n"
      ++ "• Overall Research Quality: " ++ fmt2 avgOverall ++ "/1.0\n"
      ++ "• Source Authority: " ++ fmt2 avgAuthority ++ "/1.0\n"
      ++ "• Information Recency: " ++ fmt2 avgRecency ++ "/1.0\n"
      ++ "• Data Specificity: " ++ fmt2 avgSpecificity ++ "/1.0\n"
      ++ "• Sources Consulted: " ++ toString qualityScores.length ++ "\n\n"
      ++ "**Research Reliability: " ++ qualityLevel ++ "**\n"
      ++ (if avgAuthority ≥ 4/5 then "• High-authority sources with strong credibility\n" else "")
      ++ (if avgRecency ≥ 7/10 then "• Current and up-to-date information\n" else "")
      ++ (if avgSpecificity ≥ 3/5 then "• Specific data points and quantitative evidence\n" else "")

/-- One iteration of the per-source excerpt loop in
`EnhancedResearchAgent._synthesize_multi_source_results`. -/
def synthAppendStep (results : List (String × String)) (acc : String)
    (p : String × QualityScore) : String :=
  match results.find? (fun r => r.1 = p.1) with
  | some (_, sourceResult) =>
    acc ++ "**" ++ pyTitle (pyReplaceChar '_' ' ' p.1) ++ " (Quality: "
      ++ fmt2 p.2.overall ++ "/1.0):**\n"
      ++ (if 800 < sourceResult.length then
            pyTake 800 sourceResult ++ "...\n[Result truncated for synthesis]"
          else sourceResult)
      ++ "\n\n"
  | none => acc

/-- `EnhancedResearchAgent._synthesize_multi_source_results`: the successive
`synthesis += ...` of the source, flattened into one append chain; the
per-source loop runs over the quality scores sorted descending by `overall`
(stable, as Python `sorted(..., reverse=True)`). -/
def synthesizeMultiSourceResults (query : String)
    (results : List (String × String))
    (qualityScores : List (String × QualityScore)) : String :=
  ((sortDescBy (fun p => p.2.overall) qualityScores).foldl (synthAppendStep results)
    ("**Comprehensive Research Analysis: " ++ query ++ "**\n\n"
      ++ "**Research Sources Used:** "
      ++ pyTitle (pyReplaceChar '_' ' ' (pyJoin ", " (results.map Prod.fst))) ++ "\n\n"
      ++ formatKeyFindings (extractKeyFindings results)
      ++ "**Detailed Source Results:**\n\n"))
  ++ formatResearchQualityAssessment qualityScores

/-- `EnhancedResearchAgent._deep_multi_source_search`. -/
def deepMultiSourceSearch (currentYear : Nat)
    (searchFn : String → String → Except String String) (query : String) : String :=
  let relevantTools := getRelevantTools query
  let results := collectDeepResults (fun t => searchFn t query) relevantTools
  let qualityScores := results.map (fun p => (p.1, scoreResearchQuality currentYear p.2 p.1))
  if results.isEmpty then noResultsMessage query
  else synthesizeMultiSourceResults query results qualityScores

/-- Each excerpt-loop iteration only appends to the accumulator. -/
theorem foldl_synthAppendStep_length (results : List (String × String))
    (l : List (String × QualityScore)) (acc : String) :
    acc.length ≤ (l.foldl (synthAppendStep results) acc).length := by
  induction l generalizing acc with
  | nil => simp
  | cons p ps ih =>
    refine le_trans ?_ (ih (synthAppendStep results acc p))
    unfold synthAppendStep
    cases results.find? (fun r => r.1 = p.1) with
    | none => exact le_refl _
    | some pr =>
      cases pr with
      | mk a b =>
        simp only [String.length_append]
        omega

/-- The synthesis report always retains its leading header. -/
theorem synth_length_ge (query : String) (results : List (String × String))
    (qualityScores : List (String × QualityScore)) :
    35 ≤ (synthesizeMultiSourceResults query results qualityScores).length := by
  unfold synthesizeMultiSourceResults
  rw [String.length_append]
  refine le_trans ?_ (Nat.le_add_right _ _)
  refine le_trans ?_ (foldl_synthAppendStep_length ..)
  simp only [String.length_append]
  have h35 : ("**Comprehensive Research Analysis: " : String).length = 35 := rfl
  omega

/-- The fixed no-results message is visibly nonempty. -/
theorem noResultsMessage_ne (query : String) : noResultsMessage query ≠ "" := by
  intro hc
  have hlen := congrArg String.length hc
  simp only [noResultsMessage, String.length_append] at hlen
  have h21 : ("**Deep Research for: " : String).length = 21 := rfl
  have h0 : ("" : String).length = 0 := rfl
  rw [h21, h0] at hlen
  omega

/-- C6: deep-depth research never returns an empty string, and whenever every
collaborator fails or returns a result of at most 50 characters it returns the
explicit no-results message. -/
theorem c6_deep_search_never_empty (currentYear : Nat)
    (searchFn : String → String → Except String String) (query : String) :
    deepMultiSourceSearch currentYear searchFn query ≠ "" ∧
    ((∀ t ∈ getRelevantTools query, ∀ r, searchFn t query = .ok r → r.length ≤ 50) →
      deepMultiSourceSearch currentYear searchFn query = noResultsMessage query) := by
  constructor
  · by_cases h : (collectDeepResults (fun t => searchFn t query)
        (getRelevantTools query)).isEmpty = true
    · simp only [deepMultiSourceSearch]
      rw [if_pos h]
      exact noResultsMessage_ne query
    · simp only [deepMultiSourceSearch]
      rw [if_neg h]
      intro hc
      have := synth_length_ge query
        (collectDeepResults (fun t => searchFn t query) (getRelevantTools query))
        ((collectDeepResults (fun t => searchFn t query) (getRelevantTools query)).map
          (fun p => (p.1, scoreResearchQuality currentYear p.2 p.1)))
      rw [hc] at this
      simp at this
  · intro hall
    have hnil : collectDeepResults (fun t => searchFn t query)
        (getRelevantTools query) = [] := by
      apply List.filterMap_eq_nil_iff.mpr
      intro a ha
      cases hsa : searchFn a query with
      | error e => simp [hsa]
      | ok r =>
        simp only [hsa]
        rw [if_neg]
        intro hcond
        have h1 := pyStrip_length_le r
        have h2 := hall a ha r hsa
        have h3 := hcond.2
        omega
    simp [deepMultiSourceSearch, hnil]

/-- C6 witness: all collaborators failing yields the no-results message. -/
theorem c6_witness :
    deepMultiSourceSearch 2026 (fun _ _ => Except.error "down") "test" ≠ "" ∧
    deepMultiSourceSearch 2026 (fun _ _ => Except.error "down") "test"
      = noResultsMessage "test" :=
  ⟨(c6_deep_search_never_empty 2026 (fun _ _ => Except.error "down") "test").1,
   (c6_deep_search_never_empty 2026 (fun _ _ => Except.error "down") "test").2
     (fun t _ r hr => by simp at hr)⟩

/-- C7: standard-depth routing calls the collaborator chosen by the cascade;
on its raising it falls back exactly once to web; a formatted failure string is
returned only when the web fallback also raises, or when web itself was the
chosen collaborator and raised; the function is total, so nothing propagates
to the caller.  The second component of `standardSearch` is the trace of
collaborator invocations. -/
theorem c7_standard_search_fallback (query : String)
    (searchFn : String → String → Except String String) :
    (∀ r, searchFn (routeQueryToTool query) query = .ok r →
      standardSearch searchFn query = (r, [routeQueryToTool query])) ∧
    (∀ e r, searchFn (routeQueryToTool query) query = .error e →
      routeQueryToTool query ≠ "web" →
      searchFn "web" query = .ok r →
      standardSearch searchFn query = (r, [routeQueryToTool query, "web"])) ∧
    (∀ e e2, searchFn (routeQueryToTool query) query = .error e →
      routeQueryToTool query ≠ "web" →
      searchFn "web" query = .error e2 →
      standardSearch searchFn query
        = (standardFailureMessage query e2, [routeQueryToTool query, "web"])) ∧
    (∀ e, searchFn (routeQueryToTool query) query = .error e →
      routeQueryToTool query = "web" →
      standardSearch searchFn query
        = (standardFailureMessage query e, ["web"])) := by
  refine ⟨?_, ?_, ?_, ?_⟩
  · intro r hok
    simp [standardSearch, hok]
  · intro e r herr hweb hok
    simp [standardSearch, herr, hweb, hok]
  · intro e e2 herr hweb herr2
    simp [standardSearch, herr, hweb, herr2]
  · intro e herr hweb
    rw [hweb] at herr
    simp [standardSearch, hweb, herr]

/-- C7 witness: the query "definition" routes to the encyclopedia collaborator;
when it raises, the single web fallback answers. -/
theorem c7_witness :
    routeQueryToTool "definition" = "wikipedia" ∧
    standardSearch
      (fun t _ => if t = "web" then Except.ok "web result" else Except.error "boom")
      "definition" = ("web result", ["wikipedia", "web"]) := by
  have hroute : routeQueryToTool "definition" = "wikipedia" := by decide
  refine ⟨hroute, ?_⟩
  have h := (c7_standard_search_fallback "definition"
    (fun t _ => if t = "web" then Except.ok "web result" else Except.error "boom")).2.1
    "boom" "web result" (by rw [hroute]; rfl) (by rw [hroute]; decide) rfl
  rw [hroute] at h
  exact h

/-! ## Confidence extraction (`VisualConsensusEngine._extract_confidence`) -/

/-- The literal part of the pattern `Confidence:\s*(\d+(?:\.\d+)?)`. -/
def confMarker : List Char := "Confidence:".data

/-- Attempt the confidence pattern at one position: the literal marker, then
greedy `\s*`, then at least one digit, then an optional `.digits` group. -/
def tryConfAt (l : List Char) : Option Rat :=
  if confMarker.isPrefixOf l then
    let r2 := (l.drop confMarker.length).dropWhile isPyWs
    let ds := r2.takeWhile Char.isDigit
    if ds = [] then none
    else
      match r2.drop ds.length with
      | '.' :: r4 =>
        let ds2 := r4.takeWhile Char.isDigit
        if ds2 = [] then some (mkRat (digitsToNat ds) 1)
        else some (mkRat (digitsToNat ds * 10 ^ ds2.length + digitsToNat ds2)
          (10 ^ ds2.length))
      | _ => some (mkRat (digitsToNat ds) 1)
  else none

/-- `re.search` scan for the confidence pattern: leftmost position wins. -/
def confScanGo : Nat → List Char → Option Rat
  | 0, _ => none
  | _ + 1, [] => none
  | fuel + 1, c :: rest =>
    match tryConfAt (c :: rest) with
    | some v => some v
    | none => confScanGo fuel rest

/-- `VisualConsensusEngine._extract_confidence`: `None` and falsy inputs give
the default 5.0, otherwise the scanned number, defaulting to 5.0 when the
pattern does not match.  (The `float()` conversion in the source cannot fail
on a string matched by this pattern.) -/
def extractConfidence (response : Option String) : Rat :=
  match response with
  | none => 5
  | some s =>
    if s = "" then 5
    else
      match confScanGo (s.data.length + 1) s.data with
      | some v => v
      | none => 5

/-- A position where the marker is not a prefix cannot match. -/
theorem tryConfAt_none_of_no_marker (l : List Char)
    (h : ¬ confMarker <+: l) : tryConfAt l = none := by
  unfold tryConfAt
  rw [if_neg]
  intro hp
  exact h (List.isPrefixOf_iff_prefix.mp hp)

/-- If the marker occurs nowhere in the text, the scan fails. -/
theorem confScanGo_none (fuel : Nat) (l : List Char)
    (h : ¬ confMarker <:+: l) : confScanGo fuel l = none := by
  induction fuel generalizing l with
  | zero => rfl
  | succ f ih =>
    cases l with
    | nil => rfl
    | cons c rest =>
      show (match tryConfAt (c :: rest) with
        | some v => some v
        | none => confScanGo f rest) = none
      rw [tryConfAt_none_of_no_marker _ (fun hp => h hp.isInfix)]
      exact ih rest (fun hi => h (List.infix_cons hi))

/-- C8: confidence extraction returns the number following a `Confidence:`
marker when present (the specification's example yields 7.5), the default 5.0
when the marker is absent, and 5.0 on `None` or empty input. -/
theorem c8_extract_confidence :
    extractConfidence (some "... Position: X Confidence: 7.5") = 75/10 ∧
    (∀ s, ¬ ("Confidence:".data <:+: s.data) → extractConfidence (some s) = 5) ∧
    extractConfidence none = 5 ∧
    extractConfidence (some "") = 5 := by
  refine ⟨?_, ?_, rfl, rfl⟩
  · have h : extractConfidence (some "... Position: X Confidence: 7.5")
        = mkRat 75 10 := by decide
    rw [h]
    norm_num [mkRat, Rat.normalize]
  intro s h
  simp only [extractConfidence]
  by_cases hs : s = ""
  · rw [if_pos hs]
  · rw [if_neg hs, confScanGo_none _ _ h]

/-- C8 witness: a marker-free text falls back to the default. -/
theorem c8_witness :
    ¬ ("Confidence:".data <:+: "no marker here".data) ∧
    extractConfidence (some "no marker here") = 5 :=
  ⟨by decide, c8_extract_confidence.2.1 "no marker here" (by decide)⟩

/-! ## Role assignment (`VisualConsensusEngine.assign_roles`) -/

/-- The archetype list each scheme starts from (empty for unknown schemes;
scheme `"none"` never reaches this table). -/
def schemeArchetypes (roleAssignment : String) : List String :=
  if roleAssignment = "balanced" then
    ["expert_advocate", "critical_analyst", "strategic_advisor", "research_specialist"]
  else if roleAssignment = "specialized" then
    ["research_specialist", "strategic_advisor", "innovation_catalyst", "expert_advocate"]
  else if roleAssignment = "adversarial" then
    ["critical_analyst", "innovation_catalyst", "expert_advocate", "strategic_advisor"]
  else []

/-- `VisualConsensusEngine.assign_roles`: the scheme list is padded with
`"standard"` until it is at least as long as the model list, then assigned by
`roles_to_assign[i % len(roles_to_assign)]` (the modulo never wraps after the
padding).  The Python dict is modelled as an association list in insertion
order; callers pass distinct model keys. -/
def assignRoles (models : List String) (roleAssignment : String) :
    List (String × String) :=
  if roleAssignment = "none" then
    models.map (fun m => (m, "standard"))
  else
    let rolesToAssign := schemeArchetypes roleAssignment
      ++ List.replicate (models.length - (schemeArchetypes roleAssignment).length)
          "standard"
    models.enum.map (fun p =>
      (p.2, rolesToAssign.getD (p.1 % rolesToAssign.length) "standard"))

/-- The assignment the claim describes: cycle the scheme's archetype list when
models outnumber the archetypes.  Stated for comparison with `assignRoles`. -/
def claimCyclicRoles (models : List String) (roleAssignment : String) :
    List (String × String) :=
  if roleAssignment = "none" then
    models.map (fun m => (m, "standard"))
  else
    models.enum.map (fun p =>
      (p.2, (schemeArchetypes roleAssignment).getD
        (p.1 % (schemeArchetypes roleAssignment).length) "standard"))

/-- C5 counterexample: with five models under the `balanced` scheme the code
gives the fifth model `"standard"` (padding), while cycling the scheme's
archetype list would give it `"expert_advocate"`. -/
theorem c5_counterexample :
    assignRoles ["m1", "m2", "m3", "m4", "m5"] "balanced"
      ≠ claimCyclicRoles ["m1", "m2", "m3", "m4", "m5"] "balanced" ∧
    (assignRoles ["m1", "m2", "m3", "m4", "m5"] "balanced").getD 4 ("", "")
      = ("m5", "standard") ∧
    (claimCyclicRoles ["m1", "m2", "m3", "m4", "m5"] "balanced").getD 4 ("", "")
      = ("m5", "expert_advocate") :=
  ⟨by decide, by decide, by decide⟩

/-- After padding with `"standard"` the modulo never wraps: position `i` gets
the `i`-th archetype when one exists and `"standard"` otherwise. -/
theorem padded_getD (base : List String) (N i : Nat) (hi : i < N) :
    (base ++ List.replicate (N - base.length) "standard").getD
      (i % (base ++ List.replicate (N - base.length) "standard").length) "standard"
      = base.getD i "standard" := by
  have hlen : (base ++ List.replicate (N - base.length) "standard").length
      = max base.length N := by
    simp only [List.length_append, List.length_replicate]
    omega
  have hlt : i < (base ++ List.replicate (N - base.length) "standard").length := by
    rw [hlen]
    omega
  rw [Nat.mod_eq_of_lt hlt]
  simp only [List.getD_eq_getElem?_getD, List.getElem?_append]
  by_cases hb : i < base.length
  · rw [if_pos hb]
  · rw [if_neg hb, List.getElem?_replicate, if_pos (by omega),
      List.getElem?_eq_none (by omega)]
    rfl

/-- C5 (amended): `assign_roles` returns exactly one entry per model, keyed in
input order; entry `i` carries the scheme's `i`-th archetype when one exists
and `"standard"` otherwise (the scheme list is padded, not cycled); scheme
`"none"` yields `"standard"` for every model. -/
theorem c5_assign_roles_amended (models : List String) (ra : String)
    (_hnd : models.Nodup) :
    (assignRoles models ra).map Prod.fst = models ∧
    (assignRoles models ra).length = models.length ∧
    (∀ i, i < models.length →
      ((assignRoles models ra).getD i ("", "")).2
        = if ra = "none" then "standard"
          else (schemeArchetypes ra).getD i "standard") ∧
    (ra = "none" → ∀ p ∈ assignRoles models ra, p.2 = "standard") := by
  refine ⟨?_, ?_, ?_, ?_⟩
  · by_cases h : ra = "none"
    · rw [assignRoles, if_pos h, List.map_map]
      exact List.map_id ..▸ (by simp : List.map (fun m => m) models = models)
    · simp only [assignRoles, if_neg h, List.map_map]
      exact List.enum_map_snd models
  · by_cases h : ra = "none" <;> simp [assignRoles, h]
  · intro i hi
    by_cases h : ra = "none"
    · rw [if_pos h]
      simp only [assignRoles, if_pos h, List.getD_eq_getElem?_getD,
        List.getElem?_map, List.getElem?_eq_getElem hi]
      rfl
    · rw [if_neg h]
      simp only [assignRoles, if_neg h, List.getD_eq_getElem?_getD,
        List.getElem?_map, List.getElem?_enum, List.getElem?_eq_getElem hi]
      simp only [Option.map_some', Option.getD_some]
      rw [← List.getD_eq_getElem?_getD, ← List.getD_eq_getElem?_getD]
      exact padded_getD (schemeArchetypes ra) models.length i hi
  · intro h p hp
    simp only [assignRoles, if_pos h, List.mem_map] at hp
    obtain ⟨m, _, rfl⟩ := hp
    rfl

/-- C5 witness: five distinct models under the `specialized` scheme; the first
conjunct instantiates the key-order clause, the second the padding clause at
the fifth model. -/
theorem c5_witness :
    (assignRoles ["a", "b", "c", "d", "e"] "specialized").map Prod.fst
      = ["a", "b", "c", "d", "e"] ∧
    ((assignRoles ["a", "b", "c", "d", "e"] "specialized").getD 4 ("", "")).2
      = "standard" := by
  have h := c5_assign_roles_amended ["a", "b", "c", "d", "e"] "specialized"
    (by decide)
  refine ⟨h.1, ?_⟩
  rw [h.2.2.1 4 (by decide)]
  decide

/-! ## Consensus engine (`app.py`, `VisualConsensusEngine`)

The model backends are an oracle `callModel : model key → prompt → Option String`
(`None` = failed call, mirroring `call_model`).  Visual-state snapshot writes
and pacing sleeps are omitted (no claim observes them); messages and log
events are constructed at exactly the source's emission points.  Python dicts
are association lists in insertion order.  Numbers interpolated into prompt
text are rendered by a fixed decimal printer; prompts are opaque to the
oracle. -/

structure ModelInfo where
  name : String
  available : Bool
deriving Repr, DecidableEq

structure Message where
  speaker : String
  text : String
  confidence : Rat
  role : String
deriving Repr, DecidableEq

structure LogEvent where
  etype : String
  speaker : String
  content : String
deriving Repr, DecidableEq

structure RunState where
  messages : List Message
  log : List LogEvent
deriving Repr, DecidableEq

structure RunResult where
  result : String
  messages : List Message
  log : List LogEvent
deriving Repr, DecidableEq

/-- `available_models = [model for model, info in self.models.items() if info['available']]`. -/
def availableModels (models : List (String × ModelInfo)) : List String :=
  (models.filter (fun p => p.2.available)).map Prod.fst

/-- `self.models[key]['name']`. -/
def modelName (models : List (String × ModelInfo)) (key : String) : String :=
  match models.find? (fun p => p.1 = key) with
  | some p => p.2.name
  | none => ""

/-- `self.models[key]['available']`. -/
def modelAvailable (models : List (String × ModelInfo)) (key : String) : Bool :=
  match models.find? (fun p => p.1 = key) with
  | some p => p.2.available
  | none => false

/-- The `self.roles` persona table. -/
def rolesTable : List (String × String) :=
  [("standard", "Provide expert analysis with clear reasoning and evidence."),
   ("expert_advocate", "You are a PASSIONATE EXPERT advocating for your specialized position. Present compelling evidence with conviction."),
   ("critical_analyst", "You are a RIGOROUS CRITIC. Identify flaws, risks, and weaknesses in arguments with analytical precision."),
   ("strategic_advisor", "You are a STRATEGIC ADVISOR. Focus on practical implementation, real-world constraints, and actionable insights."),
   ("research_specialist", "You are a RESEARCH EXPERT with deep domain knowledge. Provide authoritative analysis and evidence-based insights."),
   ("innovation_catalyst", "You are an INNOVATION EXPERT. Challenge conventional thinking and propose breakthrough approaches.")]

/-- `self.roles[role]`. -/
def roleContext (role : String) : String :=
  match rolesTable.find? (fun p => p.1 = role) with
  | some p => p.2
  | none => ""

/-- `model_roles[model]`. -/
def lookupRole (modelRoles : List (String × String)) (m : String) : String :=
  match modelRoles.find? (fun p => p.1 = m) with
  | some p => p.2
  | none => "standard"

/-- Truthiness of a backend response (`if response:`): present and nonempty. -/
def truthyResp (r : Option String) : Bool :=
  match r with
  | some s => s != ""
  | none => false

/-- Decimal rendering for a nonnegative rational interpolated into prompt text
(Python would print the underlying float). -/
def ratRepr (q : Rat) : String :=
  if q.den = 1 then toString q.num ++ ".0"
  else
    match (List.range 25).find? (fun k => (q * (10 : Rat) ^ (k + 1)).den = 1) with
    | some k =>
      let v := (q * (10 : Rat) ^ (k + 1)).num.toNat
      toString (v / 10 ^ (k + 1)) ++ "." ++ natPad (v % 10 ^ (k + 1)) (k + 1)
    | none => toString q.num ++ "/" ++ toString q.den

/-- `s[:n] + "..." if len(s) > n else s`. -/
def truncateText (n : Nat) (s : String) : String :=
  if n < s.length then pyTake n s ++ "..." else s

/-- Python dict update preserving first-insertion key order. -/
def dictUpsert {α : Type} : List (String × α) → String → α → List (String × α)
  | [], k, v => [(k, v)]
  | (k0, v0) :: rest, k, v =>
    if k0 = k then (k0, v) :: rest else (k0, v0) :: dictUpsert rest k v

/-- `VisualConsensusEngine.build_position_summary`.  An unknown topology is
mapped to the empty summary (in the source it would raise `NameError`; the
engine claims below therefore assume one of the three documented topologies). -/
def buildPositionSummary (models : List (String × ModelInfo))
    (selfModeratorModel : String) (allMessages : List Message)
    (currentModel topology : String) : String :=
  let currentModelName := modelName models currentModel
  if topology = "full_mesh" then
    let latestPositions := allMessages.foldl
      (fun (acc : List (String × (String × Rat))) msg =>
        if msg.speaker ≠ currentModelName ∧ msg.speaker ≠ "Research Agent" then
          dictUpsert acc msg.speaker (truncateText 150 msg.text, msg.confidence)
        else acc) []
    latestPositions.foldl
      (fun acc p =>
        acc ++ "• **" ++ p.1 ++ "**: " ++ p.2.1 ++ " (Confidence: "
          ++ ratRepr p.2.2 ++ "/10)\n")
      "EXPERT POSITIONS:\n"
  else if topology = "star" then
    let moderatorName := modelName models selfModeratorModel
    match allMessages.reverse.find? (fun msg => msg.speaker = moderatorName) with
    | some msg =>
      "MODERATOR ANALYSIS:\n" ++ "• **" ++ moderatorName ++ "**: "
        ++ truncateText 200 msg.text ++ "\n"
    | none => "MODERATOR ANALYSIS:\n"
  else if topology = "ring" then
    let avail := availableModels models
    let currentIdx := avail.indexOf currentModel
    let prevIdx := (currentIdx + avail.length - 1) % avail.length
    let prevModelName := modelName models (avail.getD prevIdx "")
    match allMessages.reverse.find? (fun msg => msg.speaker = prevModelName) with
    | some msg =>
      "PREVIOUS EXPERT:\n" ++ "• **" ++ prevModelName ++ "**: "
        ++ truncateText 200 msg.text ++ "\n"
    | none => "PREVIOUS EXPERT:\n"
  else ""

/-- Phase-1 prompt intensity by decision protocol. -/
def protocolIntensity (decisionProtocol : String) : String × String × String :=
  if decisionProtocol = "majority_voting" ∨ decisionProtocol = "ranked_choice" then
    ("🎯 CRITICAL DECISION",
     "Take a STRONG, CLEAR position and defend it with compelling evidence",
     "This decision has major consequences - be decisive and convincing")
  else if decisionProtocol = "consensus" then
    ("🤝 COLLABORATIVE ANALYSIS",
     "Provide thorough analysis while remaining open to other perspectives",
     "Work toward building understanding and finding common ground")
  else
    ("🔬 EXPERT ANALYSIS",
     "Provide authoritative analysis with detailed reasoning",
     "Your expertise and evidence quality will determine influence")

/-- The Phase-1 prompt template. -/
def phase1Prompt (question role decisionProtocol : String) : String :=
  (protocolIntensity decisionProtocol).1 ++ ": " ++ question
    ++ "\n\nYour Role: " ++ roleContext role
    ++ "\n\nANALYSIS REQUIREMENTS:\n- " ++ (protocolIntensity decisionProtocol).2.1
    ++ "\n- " ++ (protocolIntensity decisionProtocol).2.2
    ++ "\n- Use specific examples, data, and evidence"
    ++ "\n- If you need current information or research, you can search the web, Wikipedia, academic papers, technology trends, or financial data"
    ++ "\n- Maximum 200 words of focused analysis"
    ++ "\n- End with \"Position: [YOUR CLEAR STANCE]\" and \"Confidence: X/10\""
    ++ "\n\nProvide your expert analysis:"

/-- Phase-2 discussion style by decision protocol. -/
def discussionStyle (decisionProtocol : String) : String × String :=
  if decisionProtocol = "majority_voting" ∨ decisionProtocol = "ranked_choice" then
    ("DEFEND your position and CHALLENGE weak arguments",
     "Prove why your approach is superior")
  else if decisionProtocol = "consensus" then
    ("BUILD on other experts\x27 insights and ADDRESS concerns",
     "Work toward a solution everyone can support")
  else
    ("REFINE your analysis and RESPOND to other experts",
     "Demonstrate the strength of your reasoning")

/-- The Phase-2 prompt template. -/
def phase2Prompt (question role positionSummary decisionProtocol : String)
    (roundNum : Nat) : String :=
  "🔄 Expert Round " ++ toString (roundNum + 1) ++ ": " ++ question
    ++ "\n\nYour Role: " ++ roleContext role
    ++ "\n\n" ++ positionSummary
    ++ "\n\nDISCUSSION FOCUS:\n- " ++ (discussionStyle decisionProtocol).1
    ++ "\n- " ++ (discussionStyle decisionProtocol).2
    ++ "\n- Address specific points raised by other experts"
    ++ "\n- Use current data and research if needed"
    ++ "\n- Maximum 180 words of focused response"
    ++ "\n- End with \"Position: [UNCHANGED/EVOLVED]\" and \"Confidence: X/10\""
    ++ "\n\nYour expert response:"

/-- The Message appended for one model in Phase 1 (success or degraded). -/
def phase1Message (models : List (String × ModelInfo))
    (callModel : String → String → Option String)
    (question decisionProtocol : String) (modelRoles : List (String × String))
    (m : String) : Message :=
  let nm := modelName models m
  let role := lookupRole modelRoles m
  let response := callModel m (phase1Prompt question role decisionProtocol)
  if truthyResp response then
    ⟨nm, response.getD "", extractConfidence response, role⟩
  else
    ⟨nm, "⚠️ Analysis temporarily unavailable - API connection failed. Please check your API keys and try again.", 0, role⟩

/-- The log events emitted for one model in Phase 1. -/
def phase1Events (models : List (String × ModelInfo))
    (callModel : String → String → Option String)
    (question decisionProtocol : String) (modelRoles : List (String × String))
    (m : String) : List LogEvent :=
  let nm := modelName models m
  let role := lookupRole modelRoles m
  let response := callModel m (phase1Prompt question role decisionProtocol)
  [⟨"thinking", nm, ""⟩, ⟨"speaking", nm, ""⟩,
   ⟨"message", nm,
     if truthyResp response then response.getD ""
     else "Analysis temporarily unavailable - API connection failed"⟩]

/-- One iteration of the Phase-1 loop. -/
def phase1Step (models : List (String × ModelInfo))
    (callModel : String → String → Option String)
    (question decisionProtocol : String) (modelRoles : List (String × String))
    (st : RunState) (m : String) : RunState :=
  { messages := st.messages
      ++ [phase1Message models callModel question decisionProtocol modelRoles m]
    log := st.log
      ++ phase1Events models callModel question decisionProtocol modelRoles m }

/-- The Message appended for one model in a Phase-2 round; the position
summary (and hence the prompt) is built from the messages so far. -/
def phase2Message (models : List (String × ModelInfo))
    (selfModeratorModel : String)
    (callModel : String → String → Option String)
    (question decisionProtocol topology : String)
    (modelRoles : List (String × String)) (roundNum : Nat)
    (msgs : List Message) (m : String) : Message :=
  let nm := modelName models m
  let role := lookupRole modelRoles m
  let positionSummary := buildPositionSummary models selfModeratorModel msgs m topology
  let response := callModel m
    (phase2Prompt question role positionSummary decisionProtocol roundNum)
  if truthyResp response then
    ⟨nm, "Round " ++ toString (roundNum + 1) ++ ": " ++ response.getD "",
      extractConfidence response, role⟩
  else
    ⟨nm, "Round " ++ toString (roundNum + 1)
      ++ ": ⚠️ Analysis temporarily unavailable - API connection failed.", 0, role⟩

/-- The log events emitted for one model in a Phase-2 round. -/
def phase2Events (models : List (String × ModelInfo))
    (selfModeratorModel : String)
    (callModel : String → String → Option String)
    (question decisionProtocol topology : String)
    (modelRoles : List (String × String)) (roundNum : Nat)
    (msgs : List Message) (m : String) : List LogEvent :=
  let nm := modelName models m
  let role := lookupRole modelRoles m
  let positionSummary := buildPositionSummary models selfModeratorModel msgs m topology
  let response := callModel m
    (phase2Prompt question role positionSummary decisionProtocol roundNum)
  [⟨"thinking", nm, ""⟩, ⟨"speaking", nm, ""⟩,
   ⟨"message", nm,
     if truthyResp response then
       "Round " ++ toString (roundNum + 1) ++ ": " ++ response.getD ""
     else
       "Round " ++ toString (roundNum + 1)
         ++ ": Analysis temporarily unavailable - API connection failed"⟩]

/-- One iteration of the Phase-2 inner loop. -/
def phase2Step (models : List (String × ModelInfo)) (selfModeratorModel : String)
    (callModel : String → String → Option String)
    (question decisionProtocol topology : String)
    (modelRoles : List (String × String)) (roundNum : Nat)
    (st : RunState) (m : String) : RunState :=
  { messages := st.messages
      ++ [phase2Message models selfModeratorModel callModel question
            decisionProtocol topology modelRoles roundNum st.messages m]
    log := st.log
      ++ phase2Events models selfModeratorModel callModel question
          decisionProtocol topology modelRoles roundNum st.messages m }

/-- Phase 1: the initial-analysis loop over the available models, preceded by
the session-start and phase log events. -/
def runPhase1 (models : List (String × ModelInfo))
    (callModel : String → String → Option String)
    (question decisionProtocol roleAssignment topology : String)
    (available : List String) (modelRoles : List (String × String)) : RunState :=
  available.foldl (phase1Step models callModel question decisionProtocol modelRoles)
    ⟨[],
     [⟨"phase", "", "🎯 Starting Expert Analysis: " ++ question⟩,
      ⟨"phase", "", "📊 Configuration: " ++ toString available.length
        ++ " experts, " ++ decisionProtocol ++ " protocol, " ++ roleAssignment
        ++ " roles, " ++ topology ++ " topology"⟩,
      ⟨"phase", "", "📝 Phase 1: Expert Initial Analysis"⟩]⟩

/-- Phase 2: the discussion rounds (skipped entirely at round count 0). -/
def runPhase2 (models : List (String × ModelInfo)) (selfModeratorModel : String)
    (callModel : String → String → Option String)
    (question decisionProtocol topology : String)
    (modelRoles : List (String × String)) (discussionRounds : Nat)
    (available : List String) (st : RunState) : RunState :=
  if discussionRounds > 0 then
    (List.range discussionRounds).foldl
      (fun acc roundNum =>
        available.foldl
          (phase2Step models selfModeratorModel callModel question
            decisionProtocol topology modelRoles roundNum)
          { acc with log := acc.log
              ++ [⟨"phase", "", "🔄 Expert Round " ++ toString (roundNum + 1)⟩] })
      { st with log := st.log
          ++ [⟨"phase", "", "💬 Phase 2: Expert Discussion ("
                ++ toString discussionRounds ++ " rounds)"⟩] }
  else st

/-- The state after Phases 1 and 2, before synthesis. -/
def preSynthesisState (models : List (String × ModelInfo))
    (selfModeratorModel : String)
    (callModel : String → String → Option String) (question : String)
    (discussionRounds : Nat)
    (decisionProtocol roleAssignment topology : String) : RunState :=
  runPhase2 models selfModeratorModel callModel question decisionProtocol topology
    (assignRoles (availableModels models) roleAssignment) discussionRounds
    (availableModels models)
    (runPhase1 models callModel question decisionProtocol roleAssignment topology
      (availableModels models)
      (assignRoles (availableModels models) roleAssignment))

/-- The moderator display title by decision protocol. -/
def moderatorTitle (decisionProtocol : String) : String :=
  if decisionProtocol = "consensus" then "Senior Advisor"
  else if decisionProtocol = "majority_voting" ∨ decisionProtocol = "ranked_choice" then
    "Lead Analyst"
  else "Lead Researcher"

/-- The Phase-3 banner by decision protocol. -/
def phase3Name (decisionProtocol : String) : String :=
  if decisionProtocol = "consensus" then "🤝 Phase 3: Building Consensus"
  else if decisionProtocol = "majority_voting" ∨ decisionProtocol = "ranked_choice" then
    "⚖️ Phase 3: Final Decision"
  else "📊 Phase 3: Expert Synthesis"

/-- `moderator = self.moderator_model if available else available_models[0]`. -/
def phase3Moderator (models : List (String × ModelInfo))
    (selfModeratorModel : String) (available : List String) : String :=
  if modelAvailable models selfModeratorModel then selfModeratorModel
  else available.headD ""

/-- Python dict-of-lists update preserving first-insertion key order. -/
def dictAppend (l : List (String × List Message)) (k : String) (v : Message) :
    List (String × List Message) :=
  match l with
  | [] => [(k, [v])]
  | (k0, vs) :: rest =>
    if k0 = k then (k0, vs ++ [v]) :: rest else (k0, vs) :: dictAppend rest k v

/-- `final_positions`: per-speaker message lists, excluding the moderator
title, `Consilium` and the Research-Agent pseudo-speaker. -/
def collectFinalPositions (decisionProtocol : String) (msgs : List Message) :
    List (String × List Message) :=
  msgs.foldl
    (fun acc msg =>
      if msg.speaker ≠ moderatorTitle decisionProtocol
          ∧ msg.speaker ≠ "Consilium" ∧ msg.speaker ≠ "Research Agent" then
        dictAppend acc msg.speaker msg
      else acc) []

/-- `confidence_scores`: the confidences of the same filtered messages. -/
def collectConfidences (decisionProtocol : String) (msgs : List Message) :
    List Rat :=
  (msgs.filter
    (fun msg => msg.speaker ≠ moderatorTitle decisionProtocol
      ∧ msg.speaker ≠ "Consilium" ∧ msg.speaker ≠ "Research Agent")).map
    Message.confidence

/-- Flat arithmetic mean of the captured confidences, default 5.0. -/
def avgConfidence (decisionProtocol : String) (msgs : List Message) : Rat :=
  let cs := collectConfidences decisionProtocol msgs
  if cs.isEmpty then 5 else (cs.foldl (· + ·) 0) / (cs.length : Rat)

/-- The `expert_summary` string of Phase 3. -/
def expertSummary (question decisionProtocol : String) (msgs : List Message) :
    String :=
  (collectFinalPositions decisionProtocol msgs).foldl
    (fun acc p =>
      match p.2.getLast? with
      | some latest =>
        acc ++ "\n📋 **" ++ p.1 ++ "** (" ++ latest.role ++ "):\n"
          ++ truncateText 200 latest.text
          ++ "\nFinal Confidence: " ++ ratRepr latest.confidence ++ "/10\n"
      | none => acc)
    ("🎯 EXPERT ANALYSIS: " ++ question ++ "\n\nFINAL EXPERT POSITIONS:\n")

/-- Synthesis goal and required output template by protocol. -/
def synthesisGoalFormat (decisionProtocol : String) : String × String :=
  if decisionProtocol = "consensus" then
    ("Build a CONSENSUS recommendation that all experts can support",
     "**CONSENSUS REACHED:** [Yes/Partial/No]\n**RECOMMENDED APPROACH:** [Synthesis]\n**AREAS OF AGREEMENT:** [Common ground]\n**REMAINING CONCERNS:** [Issues to address]")
  else if decisionProtocol = "majority_voting" ∨ decisionProtocol = "ranked_choice" then
    ("Determine the STRONGEST position and declare a clear winner",
     "**DECISION:** [Clear recommendation]\n**WINNING ARGUMENT:** [Most compelling case]\n**KEY EVIDENCE:** [Supporting data]\n**IMPLEMENTATION:** [Next steps]")
  else
    ("Synthesize expert insights into actionable recommendations",
     "**ANALYSIS CONCLUSION:** [Summary]\n**RECOMMENDED APPROACH:** [Best path forward]\n**RISK ASSESSMENT:** [Key considerations]\n**CONFIDENCE LEVEL:** [Overall certainty]")

/-- The Phase-3 synthesis prompt. -/
def consensusPrompt (question decisionProtocol : String) (msgs : List Message) :
    String :=
  expertSummary question decisionProtocol msgs
    ++ "\n\n📊 SENIOR ANALYSIS REQUIRED:\n\n"
    ++ (synthesisGoalFormat decisionProtocol).1
    ++ "\n\nSYNTHESIS REQUIREMENTS:\n- Analyze the quality and strength of each expert position\n- Identify areas where experts align vs disagree  \n- Provide a clear, actionable recommendation\n- Use additional research if needed to resolve disagreements\n- Maximum 300 words of decisive analysis\n\nAverage Expert Confidence: "
    ++ fmt1 (avgConfidence decisionProtocol msgs) ++ "/10\nProtocol: "
    ++ decisionProtocol ++ "\n\nFormat:\n"
    ++ (synthesisGoalFormat decisionProtocol).2 ++ "\n\nProvide your synthesis:"

/-- The fixed fallback synthesis text substituted on total moderator failure. -/
def fallbackSynthesis : String :=
  "**ANALYSIS INCOMPLETE:** Technical difficulties prevented full synthesis.\n\n**RECOMMENDED APPROACH:** Manual review of expert positions required.\n\n**KEY CONSIDERATIONS:** All expert inputs should be carefully evaluated.\n\n**NEXT STEPS:** Retry analysis or conduct additional expert consultation."

/-- The qualitative result classification (substring/threshold heuristics). -/
def visualSummaryOf (decisionProtocol consensusResult : String) (avg : Rat) :
    String :=
  if decisionProtocol = "consensus" then
    if containsSub "CONSENSUS REACHED: Yes" consensusResult || decide (avg ≥ 15/2) then
      "✅ Expert Consensus Achieved"
    else if containsSub "Partial" consensusResult then
      "⚠️ Partial Consensus - Some Expert Disagreement"
    else "🤔 No Consensus - Significant Expert Disagreement"
  else if decisionProtocol = "majority_voting" ∨ decisionProtocol = "ranked_choice" then
    if anyKeyword ["DECISION:", "WINNING", "RECOMMEND"] (pyUpper consensusResult) then
      "⚖️ Clear Expert Recommendation"
    else "🤔 Expert Analysis Complete"
  else "📊 Expert Analysis Complete"

/-- Phase 3: moderator selection, synthesis call, fallback substitution,
classification, final Message and log emission, and the returned synthesis. -/
def runPhase3 (models : List (String × ModelInfo)) (selfModeratorModel : String)
    (callModel : String → String → Option String)
    (question decisionProtocol : String) (available : List String)
    (st : RunState) : RunResult :=
  let title := moderatorTitle decisionProtocol
  let moderator := phase3Moderator models selfModeratorModel available
  let raw := callModel moderator (consensusPrompt question decisionProtocol st.messages)
  let consensusResult := if truthyResp raw then raw.getD "" else fallbackSynthesis
  let avg := avgConfidence decisionProtocol st.messages
  let finalMessage : Message :=
    ⟨title, visualSummaryOf decisionProtocol consensusResult avg ++ "\n\n"
      ++ consensusResult, avg, "moderator"⟩
  { result := consensusResult
    messages := st.messages ++ [finalMessage]
    log := st.log
      ++ [⟨"phase", "", phase3Name decisionProtocol ++ " - " ++ decisionProtocol⟩,
          ⟨"thinking", "All experts", "Synthesizing final recommendation..."⟩,
          ⟨"speaking", title, "Synthesizing expert analysis into final recommendation..."⟩,
          ⟨"message", title, consensusResult⟩,
          ⟨"phase", "", "✅ Expert Analysis Complete"⟩] }

/-- `VisualConsensusEngine.run_visual_consensus_session`.  The
`_moderatorModel` run parameter is carried but, as in the source, the body
reads the engine field `selfModeratorModel` instead. -/
def runVisualConsensusSession (models : List (String × ModelInfo))
    (selfModeratorModel : String)
    (callModel : String → String → Option String) (question : String)
    (discussionRounds : Nat)
    (decisionProtocol roleAssignment topology _moderatorModel : String) :
    RunResult :=
  if (availableModels models).isEmpty then
    ⟨"❌ No AI models available", [], []⟩
  else
    runPhase3 models selfModeratorModel callModel question decisionProtocol
      (availableModels models)
      (preSynthesisState models selfModeratorModel callModel question
        discussionRounds decisionProtocol roleAssignment topology)

/-- C2: with zero available models the engine returns the fixed no-models
result immediately: no Message and no Log Event is produced, so no later
phase runs. -/
theorem c2_no_models_available (models : List (String × ModelInfo))
    (selfMod : String) (callModel : String → String → Option String)
    (question : String) (rounds : Nat) (protocol ra topo modParam : String)
    (hav : availableModels models = []) :
    (runVisualConsensusSession models selfMod callModel question rounds
      protocol ra topo modParam).result = "❌ No AI models available" ∧
    (runVisualConsensusSession models selfMod callModel question rounds
      protocol ra topo modParam).messages = [] ∧
    (runVisualConsensusSession models selfMod callModel question rounds
      protocol ra topo modParam).log = [] := by
  refine ⟨?_, ?_, ?_⟩ <;> simp [runVisualConsensusSession, hav]

/-- C2 witness: one registered model without a credential. -/
theorem c2_witness :
    availableModels [("mistral", ⟨"Mistral Large", false⟩)] = [] ∧
    (runVisualConsensusSession [("mistral", ⟨"Mistral Large", false⟩)] "mistral"
      (fun _ _ => some "hi") "q" 3 "consensus" "balanced" "full_mesh"
      "mistral").result = "❌ No AI models available" ∧
    (runVisualConsensusSession [("mistral", ⟨"Mistral Large", false⟩)] "mistral"
      (fun _ _ => some "hi") "q" 3 "consensus" "balanced" "full_mesh"
      "mistral").messages = [] ∧
    (runVisualConsensusSession [("mistral", ⟨"Mistral Large", false⟩)] "mistral"
      (fun _ _ => some "hi") "q" 3 "consensus" "balanced" "full_mesh"
      "mistral").log = [] := by
  have h := c2_no_models_available [("mistral", ⟨"Mistral Large", false⟩)]
    "mistral" (fun _ _ => some "hi") "q" 3 "consensus" "balanced" "full_mesh"
    "mistral" rfl
  exact ⟨rfl, h.1, h.2.1, h.2.2⟩

/-- A truthy response is a nonempty string. -/
theorem truthy_getD_ne (r : Option String) (h : truthyResp r = true) :
    r.getD "" ≠ "" := by
  cases r with
  | none => simp [truthyResp] at h
  | some s =>
    simp only [truthyResp, bne_iff_ne, ne_eq] at h
    simpa using h

/-- A string with a nonempty left part is nonempty. -/
theorem str_append_ne_left (a b : String) (h : a ≠ "") : a ++ b ≠ "" := by
  intro hc
  apply h
  have hl := congrArg String.length hc
  rw [String.length_append] at hl
  have h0 : ("" : String).length = 0 := rfl
  rw [h0] at hl
  have ha : a.length = 0 := by omega
  cases a with
  | mk d =>
    cases d with
    | nil => rfl
    | cons c cs => simp [String.length, List.length] at ha

/-- Every classification banner is nonempty. -/
theorem visualSummary_ne (p c : String) (a : Rat) : visualSummaryOf p c a ≠ "" := by
  unfold visualSummaryOf
  split_ifs <;> decide

/-- The fixed fallback synthesis text is nonempty. -/
theorem fallback_ne : fallbackSynthesis ≠ "" := by decide

/-- C9: with at least one available model (and a documented topology), the
engine substitutes the fixed analysis-incomplete fallback whenever the
moderator call yields no usable result, and in all cases the returned
synthesis and the final Message text are nonempty, with the final Message
spoken under the moderator title. -/
theorem c9_moderator_fallback (models : List (String × ModelInfo))
    (selfMod : String) (callModel : String → String → Option String)
    (question : String) (rounds : Nat) (protocol ra topo modParam k : String)
    (ks : List String)
    (hav : availableModels models = k :: ks)
    (_htopo : topo = "full_mesh" ∨ topo = "star" ∨ topo = "ring") :
    (truthyResp (callModel
        (phase3Moderator models selfMod (availableModels models))
        (consensusPrompt question protocol
          (preSynthesisState models selfMod callModel question rounds protocol
            ra topo).messages)) = false →
      (runVisualConsensusSession models selfMod callModel question rounds
        protocol ra topo modParam).result = fallbackSynthesis) ∧
    (runVisualConsensusSession models selfMod callModel question rounds
      protocol ra topo modParam).result ≠ "" ∧
    (∃ msg, (runVisualConsensusSession models selfMod callModel question rounds
        protocol ra topo modParam).messages.getLast? = some msg ∧
      msg.text ≠ "" ∧ msg.speaker = moderatorTitle protocol) := by
  have hne : (availableModels models).isEmpty = false := by rw [hav]; rfl
  have hrun : runVisualConsensusSession models selfMod callModel question rounds
      protocol ra topo modParam
      = runPhase3 models selfMod callModel question protocol
        (availableModels models)
        (preSynthesisState models selfMod callModel question rounds protocol
          ra topo) := by
    simp [runVisualConsensusSession, hne]
  refine ⟨?_, ?_, ?_⟩
  · intro hfail
    rw [hrun]
    simp only [runPhase3, hfail, Bool.false_eq_true, if_false]
  · rw [hrun]
    simp only [runPhase3]
    by_cases hres : truthyResp (callModel
        (phase3Moderator models selfMod (availableModels models))
        (consensusPrompt question protocol
          (preSynthesisState models selfMod callModel question rounds protocol
            ra topo).messages)) = true
    · rw [if_pos hres]
      exact truthy_getD_ne _ hres
    · rw [if_neg hres]
      exact fallback_ne
  · rw [hrun]
    simp only [runPhase3]
    refine ⟨_, List.getLast?_concat .., ?_, rfl⟩
    apply str_append_ne_left
    apply str_append_ne_left
    apply visualSummary_ne

/-- C9 witness: one available model, a backend that always fails, zero rounds. -/
theorem c9_witness :
    (runVisualConsensusSession [("mistral", ⟨"Mistral Large", true⟩)] "mistral"
      (fun _ _ => none) "q" 0 "consensus" "none" "full_mesh" "mistral").result
      = fallbackSynthesis ∧
    (runVisualConsensusSession [("mistral", ⟨"Mistral Large", true⟩)] "mistral"
      (fun _ _ => none) "q" 0 "consensus" "none" "full_mesh" "mistral").result
      ≠ "" := by
  have h := c9_moderator_fallback [("mistral", ⟨"Mistral Large", true⟩)]
    "mistral" (fun _ _ => none) "q" 0 "consensus" "none" "full_mesh" "mistral"
    "mistral" [] rfl (Or.inl rfl)
  exact ⟨h.1 rfl, h.2.1⟩

/-- A Phase-1 message is spoken by its model regardless of backend outcome. -/
theorem phase1Message_speaker (models : List (String × ModelInfo))
    (callModel : String → String → Option String)
    (question decisionProtocol : String) (modelRoles : List (String × String))
    (m : String) :
    (phase1Message models callModel question decisionProtocol modelRoles m).speaker
      = modelName models m := by
  simp only [phase1Message]
  split <;> rfl

/-- A Phase-2 message is spoken by its model regardless of backend outcome. -/
theorem phase2Message_speaker (models : List (String × ModelInfo))
    (selfModeratorModel : String)
    (callModel : String → String → Option String)
    (question decisionProtocol topology : String)
    (modelRoles : List (String × String)) (roundNum : Nat)
    (msgs : List Message) (m : String) :
    (phase2Message models selfModeratorModel callModel question decisionProtocol
      topology modelRoles roundNum msgs m).speaker = modelName models m := by
  simp only [phase2Message]
  split <;> rfl

/-- A Phase-2 message text always carries its round prefix. -/
theorem phase2Message_round_text (models : List (String × ModelInfo))
    (selfModeratorModel : String)
    (callModel : String → String → Option String)
    (question decisionProtocol topology : String)
    (modelRoles : List (String × String)) (roundNum : Nat)
    (msgs : List Message) (m : String) :
    ∃ s, (phase2Message models selfModeratorModel callModel question
        decisionProtocol topology modelRoles roundNum msgs m).text
      = "Round " ++ toString (roundNum + 1) ++ ": " ++ s := by
  simp only [phase2Message]
  split
  · exact ⟨_, rfl⟩
  · refine ⟨"⚠️ Analysis temporarily unavailable - API connection failed.", ?_⟩
    simp only [String.append_assoc]
    rfl

/-- C1: for a configuration with exactly two available models (A before B in
registration order) and one discussion round, the message sequence is exactly
A's initial analysis, B's initial analysis, A's round-1 message, B's round-1
message, then the moderator synthesis, in that order; both round messages are
prefixed with their round number, and the last message carries the moderator
role. -/
theorem c1_phase_ordering (models : List (String × ModelInfo))
    (selfMod : String) (callModel : String → String → Option String)
    (question protocol ra topo modParam kA kB : String)
    (hav : availableModels models = [kA, kB])
    (_htopo : topo = "full_mesh" ∨ topo = "star" ∨ topo = "ring") :
    ((runVisualConsensusSession models selfMod callModel question 1 protocol ra
      topo modParam).messages.map Message.speaker
      = [modelName models kA, modelName models kB, modelName models kA,
         modelName models kB, moderatorTitle protocol]) ∧
    (∃ s, ((runVisualConsensusSession models selfMod callModel question 1
        protocol ra topo modParam).messages.getD 2 ⟨"", "", 0, ""⟩).text
      = "Round 1: " ++ s) ∧
    (∃ s, ((runVisualConsensusSession models selfMod callModel question 1
        protocol ra topo modParam).messages.getD 3 ⟨"", "", 0, ""⟩).text
      = "Round 1: " ++ s) ∧
    ((runVisualConsensusSession models selfMod callModel question 1 protocol ra
      topo modParam).messages.getD 4 ⟨"", "", 0, ""⟩).role = "moderator" := by
  have hne : (availableModels models).isEmpty = false := by rw [hav]; rfl
  refine ⟨?_, ?_, ?_, ?_⟩
  · norm_num [runVisualConsensusSession, hne, preSynthesisState, hav, runPhase1,
      runPhase2, runPhase3, phase1Step, phase2Step, List.range_succ, List.range_zero,
      phase1Message_speaker, phase2Message_speaker]
  · norm_num [runVisualConsensusSession, hne, preSynthesisState, hav, runPhase1,
      runPhase2, runPhase3, phase1Step, phase2Step, List.range_succ, List.range_zero, List.getD]
    obtain ⟨s, hs⟩ := phase2Message_round_text models selfMod callModel question
      protocol topo (assignRoles [kA, kB] ra) 0 _ kA
    exact ⟨s, by rw [hs]; rfl⟩
  · norm_num [runVisualConsensusSession, hne, preSynthesisState, hav, runPhase1,
      runPhase2, runPhase3, phase1Step, phase2Step, List.range_succ, List.range_zero, List.getD]
    obtain ⟨s, hs⟩ := phase2Message_round_text models selfMod callModel question
      protocol topo (assignRoles [kA, kB] ra) 0 _ kB
    exact ⟨s, by rw [hs]; rfl⟩
  · norm_num [runVisualConsensusSession, hne, preSynthesisState, hav, runPhase1,
      runPhase2, runPhase3, phase1Step, phase2Step, List.range_succ, List.range_zero, List.getD]

/-- C1 witness: two available models, one round, concrete oracle. -/
theorem c1_witness :
    ((runVisualConsensusSession
      [("mistral", ⟨"Mistral Large", true⟩),
       ("sambanova_deepseek", ⟨"DeepSeek-R1", true⟩)]
      "mistral" (fun _ _ => some "Position: Yes Confidence: 8") "q" 1
      "consensus" "balanced" "full_mesh" "mistral").messages.map Message.speaker
      = ["Mistral Large", "DeepSeek-R1", "Mistral Large", "DeepSeek-R1",
         "Senior Advisor"]) ∧
    (∃ s, ((runVisualConsensusSession
      [("mistral", ⟨"Mistral Large", true⟩),
       ("sambanova_deepseek", ⟨"DeepSeek-R1", true⟩)]
      "mistral" (fun _ _ => some "Position: Yes Confidence: 8") "q" 1
      "consensus" "balanced" "full_mesh" "mistral").messages.getD 2
        ⟨"", "", 0, ""⟩).text = "Round 1: " ++ s) := by
  have h := c1_phase_ordering
    [("mistral", ⟨"Mistral Large", true⟩),
     ("sambanova_deepseek", ⟨"DeepSeek-R1", true⟩)]
    "mistral" (fun _ _ => some "Position: Yes Confidence: 8") "q" "consensus"
    "balanced" "full_mesh" "mistral" "mistral" "sambanova_deepseek" rfl
    (Or.inl rfl)
  exact ⟨h.1, h.2.1⟩
